import Mathlib

/-!
Verification of the clips-generator repository (genImages / genAudio services)
against its natural-language specification.

The definitions below are a shallow embedding of the Python source:

* `extract_output_filenames`, `poll_from`, `poll_until_done` embed
  `ComfyUIClient._poll_until_done` / `_extract_output_filenames`
  (src/genImages/backends/comfyui.py).  The remote history endpoint is
  abstracted as a function from the poll attempt number to the (optional)
  history entry for the polled prompt id; real-time sleeping between polls is
  represented by the attempt counter and the constant `POLL_INTERVAL_SEC`.
* `build_flux_workflow` embeds the workflow template builder.
* `resolve_dimensions`, `ASPECT_RATIO_DIMENSIONS` embed
  src/genImages/shared/models.py.
* `run_items` / `run_generation` embed `run_generation`
  (src/genImages/tools/generate.py); `client.generate` is abstracted as a
  function from the item index and the submitted workflow to an outcome, and
  downloads are recorded in a list of filenames written to disk.
* `image_adapter_prompt`, `audio_adapter_text`, `image_generate_endpoint`,
  `audio_generate_endpoint` embed the REST adapters
  (src/genImages/rest_api.py, src/genAudio/rest_api.py).
* `get_model_step` / `runSchedule` embed the lazy model initialisation of
  `get_model` (src/genAudio/backends/chatterbox.py) as an interleaving model
  with two callers.
-/

/- ── Polling client (src/genImages/backends/comfyui.py) ──────────────────── -/

/-- One entry of a node output `images` list: `{"filename": ..., "type": ...}`. -/
structure ImageRef where
  filename : String
  type : String
deriving DecidableEq, Repr

/-- One value of the `outputs` mapping of a history entry. -/
structure NodeOutput where
  images : List ImageRef
deriving DecidableEq, Repr

/-- The history entry `history[prompt_id]`: an optional `status.error` field and
the `outputs` mapping (values only; key order as iterated by the source). -/
structure JobData where
  statusError : Option String
  outputs : List NodeOutput
deriving DecidableEq, Repr

/-- Embeds `ComfyUIClient._extract_output_filenames`: collect `img["filename"]` for
every image whose `type` is `"output"`, over all node outputs, in order. -/
def extract_from_images : List ImageRef → List String
  | [] => []
  | img :: rest =>
    if img.type = "output" then img.filename :: extract_from_images rest
    else extract_from_images rest

def extract_output_filenames (job_data : JobData) : List String :=
  (job_data.outputs.map (fun n => extract_from_images n.images)).flatten

/-- A poll response is non-terminal ("pending") when the handle is absent, or
present with no error field and no output-tagged artifacts yet. -/
def pendingResp : Option JobData → Bool
  | none => true
  | some job => job.statusError.isNone && (extract_output_filenames job).isEmpty

/-- Classification of `_poll_until_done`: the returned filename list on
success, and the two raised `ComfyUIGenerationError` cases. -/
inductive PollOutcome where
  | Succeeded (artifacts : List String)
  | Failed (reason : String)
  | Timeout
deriving DecidableEq, Repr

def POLL_INTERVAL_SEC : Nat := 1

/-- Source: `max_attempts = max(1, int(self._timeout / POLL_INTERVAL_SEC))`. -/
def max_attempts (timeout : Nat) : Nat :=
  max 1 (timeout / POLL_INTERVAL_SEC)

/-- The polling loop of `_poll_until_done`.  `attempt` is the index of the
next poll (0-based), the second argument the remaining attempts; the result
carries the number of polls that were performed. -/
def poll_from (backend : Nat → Option JobData) : Nat → Nat → PollOutcome × Nat
  | attempt, 0 => (PollOutcome.Timeout, attempt)
  | attempt, remaining + 1 =>
    match backend attempt with
    | none => poll_from backend (attempt + 1) remaining
    | some job =>
      match job.statusError with
      | some err =>
          (PollOutcome.Failed (String.append "ComfyUI reporto error: " err), attempt + 1)
      | none =>
        if (extract_output_filenames job).isEmpty then
          poll_from backend (attempt + 1) remaining
        else
          (PollOutcome.Succeeded (extract_output_filenames job), attempt + 1)

/-- Embeds `ComfyUIClient._poll_until_done`, over an abstract history backend. -/
def poll_until_done (backend : Nat → Option JobData) (timeout : Nat) :
    PollOutcome × Nat :=
  poll_from backend 0 (max_attempts timeout)

/- ── Dimension resolution (src/genImages/shared/models.py) ───────────────── -/

/-- The `AspectRatio` enum of shared/models.py. -/
inductive AspectRatioKind where
  | SQUARE
  | LANDSCAPE
  | PORTRAIT
  | PHOTO
  | WIDE
  | CUSTOM
deriving DecidableEq, Repr

/-- The `ASPECT_RATIO_DIMENSIONS` dict; `none` models an absent key. -/
def ASPECT_RATIO_DIMENSIONS : AspectRatioKind → Option (Nat × Nat)
  | AspectRatioKind.SQUARE => some (2048, 2048)
  | AspectRatioKind.LANDSCAPE => some (3840, 2160)
  | AspectRatioKind.PORTRAIT => some (2160, 3840)
  | AspectRatioKind.PHOTO => some (2560, 1920)
  | AspectRatioKind.WIDE => some (3840, 1600)
  | AspectRatioKind.CUSTOM => none

/-- Python `x or default` on an optional integer: `None` and `0` are falsy. -/
def pyOr : Option Nat → Nat → Nat
  | none, d => d
  | some v, d => if v = 0 then d else v

/-- Embeds `resolve_dimensions` from shared/models.py. -/
def resolve_dimensions (aspect_ratio : AspectRatioKind)
    (width height : Option Nat) (default_width default_height : Nat) :
    Nat × Nat :=
  let wh :=
    if aspect_ratio = AspectRatioKind.CUSTOM then
      (pyOr width default_width, pyOr height default_height)
    else
      (ASPECT_RATIO_DIMENSIONS aspect_ratio).getD (default_width, default_height)
  (max (wh.1 / 64 * 64) 64, max (wh.2 / 64 * 64) 64)

/- ── Workflow template builder (src/genImages/backends/comfyui.py) ──────── -/

/-- A JSON-ish workflow input value: strings, integers, rationals (for the
source's float parameters, which are only carried, never computed with), and
node-output references `["node", idx]`. -/
inductive JValue where
  | str (s : String)
  | nat (n : Nat)
  | rat (q : Rat)
  | ref (node : String) (idx : Nat)
deriving DecidableEq, Repr

/-- One node of the ComfyUI node graph: `{"class_type": ..., "inputs": ...}`. -/
structure WfNode where
  classType : String
  inputs : List (String × JValue)
deriving DecidableEq, Repr

/-- Embeds `build_flux_workflow`: the fixed eight-node FLUX.1 graph.  Note that the
`output_format` argument is accepted (with the source's signature) but does not
occur in the produced graph, exactly as in the source. -/
def build_flux_workflow (prompt negative_prompt : String)
    (width height steps : Nat) (guidance : Rat) (seed : Nat)
    (checkpoint : String) (output_format : String) :
    List (String × WfNode) :=
  [ ("1", { classType := "CheckpointLoaderSimple",
            inputs := [("ckpt_name", JValue.str checkpoint)] }),
    ("2", { classType := "CLIPTextEncode",
            inputs := [("text", JValue.str prompt), ("clip", JValue.ref "1" 1)] }),
    ("3", { classType := "CLIPTextEncode",
            inputs := [("text", JValue.str negative_prompt), ("clip", JValue.ref "1" 1)] }),
    ("4", { classType := "EmptyLatentImage",
            inputs := [("width", JValue.nat width), ("height", JValue.nat height),
                       ("batch_size", JValue.nat 1)] }),
    ("5", { classType := "FluxGuidance",
            inputs := [("conditioning", JValue.ref "2" 0), ("guidance", JValue.rat guidance)] }),
    ("6", { classType := "KSampler",
            inputs := [("model", JValue.ref "1" 0), ("positive", JValue.ref "5" 0),
                       ("negative", JValue.ref "3" 0), ("latent_image", JValue.ref "4" 0),
                       ("seed", JValue.nat seed), ("steps", JValue.nat steps),
                       ("cfg", JValue.rat 1), ("sampler_name", JValue.str "euler"),
                       ("scheduler", JValue.str "simple"), ("denoise", JValue.rat 1)] }),
    ("7", { classType := "VAEDecode",
            inputs := [("samples", JValue.ref "6" 0), ("vae", JValue.ref "1" 2)] }),
    ("8", { classType := "SaveImage",
            inputs := [("images", JValue.ref "7" 0),
                       ("filename_prefix", JValue.str "flux_mcp")] }) ]

/- ── Generation orchestrator (src/genImages/tools/generate.py) ──────────── -/

/-- The fields of `GenerateImageInput` that reach `run_generation`
(`response_format` only affects serialisation and is omitted). -/
structure GenerateImageInput where
  prompt : String
  negative_prompt : String
  aspect_ratio : AspectRatioKind
  width : Option Nat
  height : Option Nat
  steps : Nat
  guidance_scale : Rat
  seed : Option Nat
  output_format : String
  batch_size : Nat
deriving DecidableEq, Repr

/-- The statically determined fields of a `GeneratedImage` record
(`image_path`, `file_size_bytes` and `generation_time_ms` depend on the
filesystem and clock and are elided). -/
structure GeneratedImage where
  filename : String
  width : Nat
  height : Nat
  format : String
  seed : Nat
  prompt : String
  steps : Nat
  guidance_scale : Rat
deriving DecidableEq, Repr

/-- The `GenerationResult` of shared/models.py. -/
structure GenResult where
  success : Bool
  images : List GeneratedImage
  total_generated : Nat
  error : Option String
deriving DecidableEq, Repr

/-- Outcome of one `client.generate(workflow)` call: the filename list on
success, or one of the two exception classes with its message. -/
inductive ItemOutcome where
  | ok (filenames : List String)
  | unavailable (msg : String)
  | genError (msg : String)
deriving DecidableEq, Repr

/-- Result of the batch loop: the files downloaded to disk so far, and either
the accumulated image records or the message of the raised exception. -/
inductive ItemsOutcome where
  | success (files : List String) (imgs : List GeneratedImage)
  | failure (files : List String) (msg : String)
deriving DecidableEq, Repr

/-- The per-batch parameters shared by every item (seed excluded). -/
structure GenParams where
  prompt : String
  negative_prompt : String
  width : Nat
  height : Nat
  steps : Nat
  guidance : Rat
  checkpoint : String
  output_format : String
deriving DecidableEq, Repr

/-- The `GeneratedImage` record built for one downloaded filename. -/
def mkImage (p : GenParams) (filename : String) (seed : Nat) : GeneratedImage :=
  { filename := filename, width := p.width, height := p.height,
    format := p.output_format, seed := seed, prompt := p.prompt,
    steps := p.steps, guidance_scale := p.guidance }

/-- The workflow submitted for batch item `i`: built with seed `seed + i` and
all other parameters shared. -/
def item_workflow (p : GenParams) (seed i : Nat) : List (String × WfNode) :=
  build_flux_workflow p.prompt p.negative_prompt p.width p.height p.steps
    p.guidance (seed + i) p.checkpoint p.output_format

/-- The `for i in range(params.batch_size)` loop of `run_generation`:
build the item workflow, call the backend, and on success download every
returned filename and record a `GeneratedImage`; any raised error aborts the
loop at once, keeping the files already written. -/
def run_items (gen : Nat → List (String × WfNode) → ItemOutcome)
    (p : GenParams) (seed : Nat) : Nat → Nat → ItemsOutcome
  | _, 0 => ItemsOutcome.success [] []
  | i, n + 1 =>
    match gen i (item_workflow p seed i) with
    | ItemOutcome.ok fns =>
      match run_items gen p seed (i + 1) n with
      | ItemsOutcome.success files imgs =>
          ItemsOutcome.success (fns ++ files)
            (fns.map (fun f => mkImage p f (seed + i)) ++ imgs)
      | ItemsOutcome.failure files msg =>
          ItemsOutcome.failure (fns ++ files) msg
    | ItemOutcome.unavailable msg => ItemsOutcome.failure [] msg
    | ItemOutcome.genError msg => ItemsOutcome.failure [] msg

/-- The `GenParams` assembled by `run_generation` from the request and the
settings (`default_width`, `default_height`, `default_model`). -/
def mkGenParams (params : GenerateImageInput) (dw dh : Nat) (dm : String) :
    GenParams :=
  { prompt := params.prompt, negative_prompt := params.negative_prompt,
    width := (resolve_dimensions params.aspect_ratio params.width params.height dw dh).1,
    height := (resolve_dimensions params.aspect_ratio params.width params.height dw dh).2,
    steps := params.steps, guidance := params.guidance_scale,
    checkpoint := dm, output_format := params.output_format }

/-- Embeds `run_generation`: resolve dimensions and seed (`rs` models the value drawn
by `random.randint` when `params.seed` is absent), run the batch loop, and
convert the outcome into a `GenerationResult`.  The second component is the
list of files downloaded to the output directory (kept on every path). -/
def run_generation (gen : Nat → List (String × WfNode) → ItemOutcome)
    (params : GenerateImageInput) (dw dh : Nat) (dm : String) (rs : Nat) :
    GenResult × List String :=
  match run_items gen (mkGenParams params dw dh dm) (params.seed.getD rs)
      0 params.batch_size with
  | ItemsOutcome.success files imgs =>
      ({ success := true, images := imgs, total_generated := imgs.length,
         error := none }, files)
  | ItemsOutcome.failure files msg =>
      ({ success := false, images := [], total_generated := 0,
         error := some msg }, files)

/- ── REST adapters (src/genImages/rest_api.py, src/genAudio/rest_api.py) ── -/

/-- Python `s or default` on an optional string: `None` and `""` are falsy. -/
def pyOrStr : Option String → String → String
  | none, d => d
  | some s, d => if s = "" then d else s

/-- Python `s.strip()`: drop leading and trailing whitespace. -/
def pyStrip (s : String) : String :=
  String.mk (((s.data.dropWhile Char.isWhitespace).reverse.dropWhile
    Char.isWhitespace).reverse)

/-- Python `s[:n]`: keep the first `n` characters. -/
def pySlice (s : String) (n : Nat) : String :=
  String.mk (s.data.take n)

/-- The validation error of the image REST adapter (message abridged). -/
def imageMinError : String :=
  "Body debe incluir la descripcion de la imagen (min 3 caracteres)."

/-- The validation error of the audio REST adapter (message abridged). -/
def audioMinError : String :=
  "Body debe incluir text o prompt (min 1 caracter)."

/-- The image adapter text handling: take `description` or `prompt`, strip it,
reject under 3 characters with HTTP 400, otherwise truncate to 2000. -/
def image_adapter_prompt (description prompt : Option String) :
    Except (Nat × String) String :=
  let p := pyStrip (pyOrStr description (pyOrStr prompt ""))
  if p.length < 3 then Except.error (400, imageMinError)
  else Except.ok (pySlice p 2000)

/-- The audio adapter text handling: take `text` or `prompt`, strip it, reject
under 1 character with HTTP 400, otherwise truncate past 5000. -/
def audio_adapter_text (text prompt : Option String) :
    Except (Nat × String) String :=
  let t := pyStrip (pyOrStr text (pyOrStr prompt ""))
  if t.length < 1 then Except.error (400, audioMinError)
  else Except.ok (if 5000 < t.length then pySlice t 5000 else t)

/-- Embeds `AspectRatio(aspect_ratio_str)` with the `except ValueError: LANDSCAPE`
fallback of the image REST adapter. -/
def parse_aspect_ratio (s : String) : AspectRatioKind :=
  if s = "1:1" then AspectRatioKind.SQUARE
  else if s = "16:9" then AspectRatioKind.LANDSCAPE
  else if s = "9:16" then AspectRatioKind.PORTRAIT
  else if s = "4:3" then AspectRatioKind.PHOTO
  else if s = "21:9" then AspectRatioKind.WIDE
  else if s = "custom" then AspectRatioKind.CUSTOM
  else AspectRatioKind.LANDSCAPE

/-- The JSON body fields read by the image `POST /generate` endpoint. -/
structure ImageBody where
  description : Option String
  prompt : Option String
  aspect_ratio : Option String
  width : Option Nat
  height : Option Nat
  steps : Option Nat
  guidance_scale : Option Rat
deriving DecidableEq, Repr

/-- The transport-level facts of a `JSONResponse`: its HTTP status and the
`success` / `error` fields of its JSON body. -/
structure HttpResponse where
  status : Nat
  success : Bool
  error : Option String
deriving DecidableEq, Repr

/-- The `GenerateImageInput` built by the image REST adapter from an accepted
body (defaults as in shared/models.py / rest_api.py). -/
def body_params (body : ImageBody) (prm : String) : GenerateImageInput :=
  { prompt := prm,
    negative_prompt := "blurry, low quality, distorted, watermark, text",
    aspect_ratio := parse_aspect_ratio (pyStrip (pyOrStr body.aspect_ratio "16:9")),
    width := body.width, height := body.height,
    steps := body.steps.getD 8,
    guidance_scale := body.guidance_scale.getD 4,
    seed := none, output_format := "png", batch_size := 1 }

/-- The image `POST /generate` endpoint: adapter validation, then
`run_generation`, whose result is returned as a `JSONResponse` with the
default status 200 whatever `result.success` is. -/
def image_generate_endpoint (gen : Nat → List (String × WfNode) → ItemOutcome)
    (body : ImageBody) (dw dh : Nat) (dm : String) (rs : Nat) : HttpResponse :=
  match image_adapter_prompt body.description body.prompt with
  | Except.error e => { status := e.1, success := false, error := some e.2 }
  | Except.ok prm =>
    let r := (run_generation gen (body_params body prm) dw dh dm rs).1
    { status := 200, success := r.success, error := r.error }

/-- The audio `POST /generate` endpoint: adapter validation, then the
synchronous TTS call (abstracted as `runAudio`); an exception is answered with
an explicit `status_code=200` and `success:false`. -/
def audio_generate_endpoint (runAudio : String → Except String Unit)
    (text prompt : Option String) : HttpResponse :=
  match audio_adapter_text text prompt with
  | Except.error e => { status := e.1, success := false, error := some e.2 }
  | Except.ok t =>
    match runAudio t with
    | Except.error e => { status := 200, success := false, error := some e }
    | Except.ok _ => { status := 200, success := true, error := none }

/- ── Lazy TTS model init (src/genAudio/backends/chatterbox.py) ──────────── -/

/-- The shared state of `get_model`: the module-global `_model` (model values
are numbered by load event) and the number of `from_pretrained` calls made. -/
structure TtsState where
  model : Option Nat
  loads : Nat
deriving DecidableEq, Repr

/-- The control point of one caller of `get_model`: not yet started, holding a
freshly loaded model not yet published to `_model`, or returned. -/
inductive CallerPC where
  | start
  | loaded (v : Nat)
  | done (v : Nat)
deriving DecidableEq, Repr

/-- One atomic step of a `get_model` caller.  `get_model` has no lock: the
check of `_model` (together with the load it triggers) and the later
assignment to `_model` are separate steps that other callers can interleave
with. -/
def get_model_step (s : TtsState) : CallerPC → TtsState × CallerPC
  | CallerPC.start =>
    match s.model with
    | some m => (s, CallerPC.done m)
    | none => ({ s with loads := s.loads + 1 }, CallerPC.loaded s.loads)
  | CallerPC.loaded v => ({ s with model := some v }, CallerPC.done v)
  | CallerPC.done v => (s, CallerPC.done v)

/-- Run two concurrent callers of `get_model` under a schedule: `true` steps
caller A, `false` steps caller B. -/
def runSchedule : List Bool → TtsState → CallerPC → CallerPC →
    TtsState × CallerPC × CallerPC
  | [], s, p1, p2 => (s, p1, p2)
  | c :: rest, s, p1, p2 =>
    if c then
      let sp := get_model_step s p1
      runSchedule rest sp.1 sp.2 p2
    else
      let sp := get_model_step s p2
      runSchedule rest sp.1 p1 sp.2

/- ── Concrete inputs used by witnesses and counterexamples ──────────────── -/

/-- A history entry with no error and one output-tagged artifact. -/
def okJob : JobData :=
  { statusError := none,
    outputs := [{ images := [{ filename := "flux_mcp_00001_.png", type := "output" }] }] }

/-- A backend whose history omits the handle for the first two polls and then
reports `okJob`. -/
def pendingTwiceBackend : Nat → Option JobData :=
  fun n => if n < 2 then none else some okJob

/-- A backend that reports an error field on the first poll. -/
def errorBackend : Nat → Option JobData :=
  fun _ => some { statusError := some "node 6 failed", outputs := [] }

/-- A backend whose history never contains the handle. -/
def neverBackend : Nat → Option JobData :=
  fun _ => none

/-- A generation backend: item 0 succeeds with one artifact, any later item
raises `ComfyUIGenerationError("boom")`. -/
def c4gen : Nat → List (String × WfNode) → ItemOutcome :=
  fun i _ => if i = 0 then ItemOutcome.ok ["a.png"] else ItemOutcome.genError "boom"

/-- A generation backend for which item `i` succeeds with the single artifact
`img_i.png`. -/
def okGen : Nat → List (String × WfNode) → ItemOutcome :=
  fun i _ => ItemOutcome.ok [String.append "img_" (toString i)]

/-- A two-item request with a fixed seed. -/
def c4params : GenerateImageInput :=
  { prompt := "a red apple on a white table",
    negative_prompt := "blurry, low quality, distorted, watermark, text",
    aspect_ratio := AspectRatioKind.SQUARE, width := none, height := none,
    steps := 8, guidance_scale := 4, seed := some 5, output_format := "png",
    batch_size := 2 }

/-- A well-formed image request body. -/
def okBody : ImageBody :=
  { description := some "a red apple on a white table", prompt := none,
    aspect_ratio := some "1:1", width := none, height := none,
    steps := some 8, guidance_scale := none }

/-- A 2001-character prompt (over the 2000-character image maximum). -/
def longPrompt : String := String.mk (List.replicate 2001 'x')

/-- A 5001-character text (over the 5000-character TTS maximum). -/
def longText : String := String.mk (List.replicate 5001 'y')

/-- A generation backend for which every submission finds ComfyUI down. -/
def failGen : Nat → List (String × WfNode) → ItemOutcome :=
  fun _ _ => ItemOutcome.unavailable "ComfyUI no responde"

/-- A TTS backend whose synchronous call raises an exception. -/
def failAudio : String → Except String Unit :=
  fun _ => Except.error "RuntimeError: model not loaded"

/- ── Polling lemmas ─────────────────────────────────────────────────────── -/

theorem poll_from_pending_step (backend : Nat → Option JobData) (a r : Nat)
    (h : pendingResp (backend a) = true) :
    poll_from backend a (r + 1) = poll_from backend (a + 1) r := by
  cases hb : backend a with
  | none => simp [poll_from, hb]
  | some job =>
    rw [hb] at h
    simp [pendingResp] at h
    obtain ⟨h1, h2⟩ := h
    simp [poll_from, hb, h1, h2]

theorem poll_from_skips_pending (backend : Nat → Option JobData) :
    ∀ N a r : Nat, (∀ i, i < N → pendingResp (backend (a + i)) = true) →
      N ≤ r → poll_from backend a r = poll_from backend (a + N) (r - N) := by
  intro N
  induction N with
  | zero => intro a r _ _; simp
  | succ n ih =>
    intro a r h hr
    cases r with
    | zero => exact absurd hr (by omega)
    | succ m =>
      have h0 : pendingResp (backend a) = true := by
        have := h 0 (by omega)
        simpa using this
      rw [poll_from_pending_step backend a m h0]
      have hsh : ∀ i, i < n → pendingResp (backend (a + 1 + i)) = true := by
        intro i hi
        have e : a + 1 + i = a + (i + 1) := by omega
        rw [e]
        exact h (i + 1) (by omega)
      rw [ih (a + 1) m hsh (by omega)]
      have e1 : a + 1 + n = a + (n + 1) := by omega
      have e2 : m - n = m + 1 - (n + 1) := by omega
      rw [e1, e2]

theorem poll_from_error_step (backend : Nat → Option JobData) (a r : Nat)
    (job : JobData) (err : String) (hb : backend a = some job)
    (he : job.statusError = some err) :
    poll_from backend a (r + 1) =
      (PollOutcome.Failed (String.append "ComfyUI reporto error: " err), a + 1) := by
  simp [poll_from, hb, he]

theorem poll_from_success_step (backend : Nat → Option JobData) (a r : Nat)
    (job : JobData) (hb : backend a = some job)
    (he : job.statusError = none) (hf : extract_output_filenames job ≠ []) :
    poll_from backend a (r + 1) =
      (PollOutcome.Succeeded (extract_output_filenames job), a + 1) := by
  cases hE : extract_output_filenames job with
  | nil => exact absurd hE hf
  | cons x xs => simp [poll_from, hb, he, hE]

theorem poll_from_all_pending (backend : Nat → Option JobData)
    (h : ∀ i, pendingResp (backend i) = true) :
    ∀ r a : Nat, poll_from backend a r = (PollOutcome.Timeout, a + r) := by
  intro r
  induction r with
  | zero => intro a; simp [poll_from]
  | succ n ih =>
    intro a
    rw [poll_from_pending_step backend a n (h a), ih (a + 1)]
    have e : a + 1 + n = a + (n + 1) := by omega
    rw [e]

/-- C1: if the history omits the job handle for the first `N` polls and on
poll `N + 1` reports the handle with no error field and at least one
output-tagged artifact, then `_poll_until_done` returns `Succeeded` with
exactly those artifacts after exactly `N + 1` polls — never earlier and
without waiting out the remaining attempts — provided
`N + 1 ≤ max_attempts`. -/
theorem C1_poll_succeeds_after_n_plus_one (backend : Nat → Option JobData)
    (timeout N : Nat) (job : JobData)
    (habs : ∀ i, i < N → backend i = none)
    (hjob : backend N = some job)
    (herr : job.statusError = none)
    (hout : extract_output_filenames job ≠ [])
    (hN : N + 1 ≤ max_attempts timeout) :
    poll_until_done backend timeout =
      (PollOutcome.Succeeded (extract_output_filenames job), N + 1) := by
  unfold poll_until_done
  rw [poll_from_skips_pending backend N 0 (max_attempts timeout)
      (fun i hi => by rw [Nat.zero_add, habs i hi]; rfl) (by omega)]
  rw [show (0 : Nat) + N = N from by omega]
  rw [show max_attempts timeout - N = (max_attempts timeout - N - 1) + 1 from by omega]
  exact poll_from_success_step backend N _ job hjob herr hout

/-- C1 witness: handle absent for the first 2 polls, terminal success on poll
3; the poll count is exactly 3. -/
theorem C1_witness :
    poll_until_done pendingTwiceBackend 10 =
      (PollOutcome.Succeeded ["flux_mcp_00001_.png"], 3) :=
  (C1_poll_succeeds_after_n_plus_one pendingTwiceBackend 10 2 okJob
    (by decide) (by decide) (by decide) (by decide) (by decide)).trans (by decide)

/-- C2: on the first poll whose history entry carries an error field (all
earlier polls non-terminal), `_poll_until_done` returns `Failed` with the
reported reason immediately after that poll and performs no further polling;
with the error on the first poll the poll count is exactly 1. -/
theorem C2_poll_fails_immediately (backend : Nat → Option JobData)
    (timeout N : Nat) (job : JobData) (err : String)
    (hpend : ∀ i, i < N → pendingResp (backend i) = true)
    (hjob : backend N = some job)
    (herr : job.statusError = some err)
    (hN : N + 1 ≤ max_attempts timeout) :
    poll_until_done backend timeout =
      (PollOutcome.Failed (String.append "ComfyUI reporto error: " err), N + 1) := by
  unfold poll_until_done
  rw [poll_from_skips_pending backend N 0 (max_attempts timeout)
      (fun i hi => by rw [Nat.zero_add]; exact hpend i hi) (by omega)]
  rw [show (0 : Nat) + N = N from by omega]
  rw [show max_attempts timeout - N = (max_attempts timeout - N - 1) + 1 from by omega]
  exact poll_from_error_step backend N _ job err hjob herr

/-- C2 witness: error field on the first poll of a 120s-timeout job; the call
returns `Failed` with poll count exactly 1, not after 120 attempts. -/
theorem C2_witness :
    poll_until_done errorBackend 120 =
      (PollOutcome.Failed "ComfyUI reporto error: node 6 failed", 1) :=
  (C2_poll_fails_immediately errorBackend 120 0
      { statusError := some "node 6 failed", outputs := [] } "node 6 failed"
      (by decide) (by decide) (by decide) (by decide)).trans (by decide)

/-- C3: against a backend that never produces a terminal state (handle absent,
or present with no error and no output artifacts, on every poll),
`_poll_until_done` times out after exactly `max(1, floor(timeout / 1))`
poll attempts. -/
theorem C3_timeout_after_max_attempts (backend : Nat → Option JobData)
    (timeout : Nat) (hpend : ∀ i, pendingResp (backend i) = true) :
    poll_until_done backend timeout =
      (PollOutcome.Timeout, max 1 (timeout / 1)) := by
  unfold poll_until_done
  rw [poll_from_all_pending backend hpend (max_attempts timeout) 0]
  simp [max_attempts, POLL_INTERVAL_SEC]

/-- C3 witness: a handle never appearing in history with a 5s timeout gives
`Timeout` after exactly 5 attempts. -/
theorem C3_witness : poll_until_done neverBackend 5 = (PollOutcome.Timeout, 5) :=
  (C3_timeout_after_max_attempts neverBackend 5 (fun _ => rfl)).trans (by decide)

/- ── Dimension lemmas ───────────────────────────────────────────────────── -/

theorem pair_max_comm (x y : Nat) :
    (max (x / 64 * 64) 64, max (y / 64 * 64) 64) =
      (max 64 (x / 64 * 64), max 64 (y / 64 * 64)) := by
  rw [Nat.max_comm (x / 64 * 64) 64, Nat.max_comm (y / 64 * 64) 64]

theorem round64_props (x : Nat) :
    64 ∣ max (x / 64 * 64) 64 ∧ 64 ≤ max (x / 64 * 64) 64 := by
  constructor
  · rcases max_choice (x / 64 * 64) 64 with h | h <;> rw [h]
    exact dvd_mul_left 64 (x / 64)
  · exact le_max_right _ _

theorem resolve_dimensions_shape (ar : AspectRatioKind) (w h : Option Nat)
    (dw dh : Nat) :
    ∃ x y : Nat, resolve_dimensions ar w h dw dh =
      (max (x / 64 * 64) 64, max (y / 64 * 64) 64) := by
  cases ar with
  | SQUARE => exact ⟨2048, 2048, rfl⟩
  | LANDSCAPE => exact ⟨3840, 2160, rfl⟩
  | PORTRAIT => exact ⟨2160, 3840, rfl⟩
  | PHOTO => exact ⟨2560, 1920, rfl⟩
  | WIDE => exact ⟨3840, 1600, rfl⟩
  | CUSTOM => exact ⟨pyOr w dw, pyOr h dh, rfl⟩

/-- C5 counterexample: for the landscape ratio the claimed table value
(3840, 2160) is not returned — 2160 is not a multiple of 64, and
`resolve_dimensions` rounds it down to 2112. -/
theorem C5_counterexample :
    resolve_dimensions AspectRatioKind.LANDSCAPE none none 1024 1024 ≠
      (3840, 2160) := by decide

/-- C5 (amended): resolved width and height are always multiples of 64 and at
least 64.  For a non-custom ratio the result is the fixed table entry with
each component rounded down to the nearest multiple of 64 and floored at 64
(landscape therefore gives 3840x2112), regardless of any explicit
width/height; for a custom ratio with explicit nonzero width and height each
resolved value is `max(64, (input // 64) * 64)`. -/
theorem C5_resolve_dimensions_amended (ar : AspectRatioKind)
    (wv hv dw dh : Nat) (hw : wv ≠ 0) (hh : hv ≠ 0) :
    (∀ w h : Option Nat,
      64 ∣ (resolve_dimensions ar w h dw dh).1 ∧
      64 ∣ (resolve_dimensions ar w h dw dh).2 ∧
      64 ≤ (resolve_dimensions ar w h dw dh).1 ∧
      64 ≤ (resolve_dimensions ar w h dw dh).2) ∧
    (ar = AspectRatioKind.CUSTOM →
      resolve_dimensions ar (some wv) (some hv) dw dh =
        (max 64 (wv / 64 * 64), max 64 (hv / 64 * 64))) ∧
    (ar ≠ AspectRatioKind.CUSTOM → ∀ w h : Option Nat, ∃ t : Nat × Nat,
      ASPECT_RATIO_DIMENSIONS ar = some t ∧
      resolve_dimensions ar w h dw dh =
        (max 64 (t.1 / 64 * 64), max 64 (t.2 / 64 * 64))) := by
  refine ⟨?_, ?_, ?_⟩
  · intro w h
    obtain ⟨x, y, hxy⟩ := resolve_dimensions_shape ar w h dw dh
    rw [hxy]
    exact ⟨(round64_props x).1, (round64_props y).1,
           (round64_props x).2, (round64_props y).2⟩
  · intro he
    subst he
    have h1 : resolve_dimensions AspectRatioKind.CUSTOM (some wv) (some hv) dw dh =
        (max (pyOr (some wv) dw / 64 * 64) 64, max (pyOr (some hv) dh / 64 * 64) 64) := by
      rfl
    have e1 : pyOr (some wv) dw = wv := by simp [pyOr, hw]
    have e2 : pyOr (some hv) dh = hv := by simp [pyOr, hh]
    rw [h1, e1, e2]
    exact pair_max_comm wv hv
  · intro hne w h
    cases ar with
    | CUSTOM => exact absurd rfl hne
    | SQUARE =>
      refine ⟨(2048, 2048), rfl, ?_⟩
      have h1 : resolve_dimensions AspectRatioKind.SQUARE w h dw dh =
          (max ((2048 : Nat) / 64 * 64) 64, max ((2048 : Nat) / 64 * 64) 64) := by rfl
      rw [h1]
      exact pair_max_comm 2048 2048
    | LANDSCAPE =>
      refine ⟨(3840, 2160), rfl, ?_⟩
      have h1 : resolve_dimensions AspectRatioKind.LANDSCAPE w h dw dh =
          (max ((3840 : Nat) / 64 * 64) 64, max ((2160 : Nat) / 64 * 64) 64) := by rfl
      rw [h1]
      exact pair_max_comm 3840 2160
    | PORTRAIT =>
      refine ⟨(2160, 3840), rfl, ?_⟩
      have h1 : resolve_dimensions AspectRatioKind.PORTRAIT w h dw dh =
          (max ((2160 : Nat) / 64 * 64) 64, max ((3840 : Nat) / 64 * 64) 64) := by rfl
      rw [h1]
      exact pair_max_comm 2160 3840
    | PHOTO =>
      refine ⟨(2560, 1920), rfl, ?_⟩
      have h1 : resolve_dimensions AspectRatioKind.PHOTO w h dw dh =
          (max ((2560 : Nat) / 64 * 64) 64, max ((1920 : Nat) / 64 * 64) 64) := by rfl
      rw [h1]
      exact pair_max_comm 2560 1920
    | WIDE =>
      refine ⟨(3840, 1600), rfl, ?_⟩
      have h1 : resolve_dimensions AspectRatioKind.WIDE w h dw dh =
          (max ((3840 : Nat) / 64 * 64) 64, max ((1600 : Nat) / 64 * 64) 64) := by rfl
      rw [h1]
      exact pair_max_comm 3840 1600

/-- C5 witness: a custom 300x4000 request resolves to the rounded-and-floored
values required by the amended claim. -/
theorem C5_witness :
    resolve_dimensions AspectRatioKind.CUSTOM (some 300) (some 4000) 1024 1024 =
      (max 64 (300 / 64 * 64), max 64 (4000 / 64 * 64)) :=
  (C5_resolve_dimensions_amended AspectRatioKind.CUSTOM 300 4000 1024 1024
      (by decide) (by decide)).2.1 rfl

/- ── Orchestrator lemmas ────────────────────────────────────────────────── -/

theorem range_map_shift {α : Type} (g : Nat → α) (m i : Nat) :
    (List.range (m + 1)).map (fun j => g (i + j)) =
      g i :: (List.range m).map (fun j => g (i + 1 + j)) := by
  rw [List.range_succ_eq_map]
  simp only [List.map_cons, List.map_map, Nat.add_zero]
  have e : ((fun j => g (i + j)) ∘ Nat.succ) = (fun j => g (i + 1 + j)) := by
    funext j
    simp only [Function.comp_apply]
    congr 1
    omega
  rw [e]

theorem run_items_all_ok (gen : Nat → List (String × WfNode) → ItemOutcome)
    (p : GenParams) (seed : Nat) (fn : Nat → String) :
    ∀ n i, (∀ j, j < n →
        gen (i + j) (item_workflow p seed (i + j)) = ItemOutcome.ok [fn (i + j)]) →
      run_items gen p seed i n =
        ItemsOutcome.success ((List.range n).map (fun j => fn (i + j)))
          ((List.range n).map (fun j => mkImage p (fn (i + j)) (seed + (i + j)))) := by
  intro n
  induction n with
  | zero => intro i _; simp [run_items]
  | succ m ih =>
    intro i h
    have h0 := h 0 (by omega)
    rw [Nat.add_zero] at h0
    have hrec := ih (i + 1) (fun j hj => by
      have e : i + 1 + j = i + (j + 1) := by omega
      rw [e]
      exact h (j + 1) (by omega))
    simp only [run_items, h0, hrec, List.map_cons, List.map_nil, List.singleton_append]
    rw [range_map_shift fn m i,
        range_map_shift (fun a => mkImage p (fn a) (seed + a)) m i]

theorem run_items_fail (gen : Nat → List (String × WfNode) → ItemOutcome)
    (p : GenParams) (seed : Nat) (fns : Nat → List String) (msg : String) :
    ∀ k i n, (∀ j, j < k →
        gen (i + j) (item_workflow p seed (i + j)) = ItemOutcome.ok (fns (i + j))) →
      (gen (i + k) (item_workflow p seed (i + k)) = ItemOutcome.unavailable msg ∨
       gen (i + k) (item_workflow p seed (i + k)) = ItemOutcome.genError msg) →
      k < n →
      run_items gen p seed i n =
        ItemsOutcome.failure ((List.range k).map (fun j => fns (i + j))).flatten msg := by
  intro k
  induction k with
  | zero =>
    intro i n h hf hn
    cases n with
    | zero => omega
    | succ m =>
      rw [Nat.add_zero] at hf
      rcases hf with hf | hf <;> simp [run_items, hf]
  | succ kk ih =>
    intro i n h hf hn
    cases n with
    | zero => omega
    | succ m =>
      have h0 := h 0 (by omega)
      rw [Nat.add_zero] at h0
      have hrec := ih (i + 1) m
        (fun j hj => by
          have e : i + 1 + j = i + (j + 1) := by omega
          rw [e]
          exact h (j + 1) (by omega))
        (by
          have e : i + 1 + kk = i + (kk + 1) := by omega
          rw [e]
          exact hf)
        (by omega)
      simp only [run_items, h0, hrec]
      rw [range_map_shift fns kk i]
      simp only [List.flatten_cons]

theorem run_items_success_imgs_format
    (gen : Nat → List (String × WfNode) → ItemOutcome) (p : GenParams)
    (seed : Nat) :
    ∀ n i files imgs, run_items gen p seed i n = ItemsOutcome.success files imgs →
      ∀ img, img ∈ imgs → img.format = p.output_format := by
  intro n
  induction n with
  | zero =>
    intro i files imgs h img hm
    simp only [run_items, ItemsOutcome.success.injEq] at h
    rw [← h.2] at hm
    exact absurd hm (List.not_mem_nil img)
  | succ m ih =>
    intro i files imgs h img hm
    cases hg : gen i (item_workflow p seed i) with
    | ok fns =>
      cases hr : run_items gen p seed (i + 1) m with
      | success files2 imgs2 =>
        have hrw : run_items gen p seed i (m + 1) =
            ItemsOutcome.success (fns ++ files2)
              (fns.map (fun f => mkImage p f (seed + i)) ++ imgs2) := by
          simp only [run_items, hg, hr]
        rw [hrw] at h
        rw [ItemsOutcome.success.injEq] at h
        rw [← h.2] at hm
        rcases List.mem_append.mp hm with hm1 | hm2
        · obtain ⟨f, _, hfe⟩ := List.mem_map.mp hm1
          rw [← hfe]
          rfl
        · exact ih (i + 1) files2 imgs2 hr img hm2
      | failure f2 m2 =>
        have hrw : run_items gen p seed i (m + 1) = ItemsOutcome.failure (fns ++ f2) m2 := by
          simp only [run_items, hg, hr]
        rw [hrw] at h
        exact ItemsOutcome.noConfusion h
    | unavailable msg =>
      have hrw : run_items gen p seed i (m + 1) = ItemsOutcome.failure [] msg := by
        simp only [run_items, hg]
      rw [hrw] at h
      exact ItemsOutcome.noConfusion h
    | genError msg =>
      have hrw : run_items gen p seed i (m + 1) = ItemsOutcome.failure [] msg := by
        simp only [run_items, hg]
      rw [hrw] at h
      exact ItemsOutcome.noConfusion h

/-- C4 counterexample: with two batch items, item 0 succeeds and downloads
`a.png` and item 1 raises a generation error; the downloaded file is kept
(the download list is `["a.png"]`) but the returned result does not report
it — `images` is empty — refuting "reported in the result as the
partial-batch outcome". -/
theorem C4_counterexample :
    (run_generation c4gen c4params 3840 2160 "flux1-schnell-fp8.safetensors" 0).2 =
      ["a.png"] ∧
    (run_generation c4gen c4params 3840 2160 "flux1-schnell-fp8.safetensors" 0).1.success =
      false ∧
    (run_generation c4gen c4params 3840 2160 "flux1-schnell-fp8.safetensors" 0).1.images =
      [] := by
  refine ⟨?_, ?_, ?_⟩ <;> rfl

/-- C4 (amended): when item `k` of the batch fails (backend unavailable or
generation error) after items `0..k-1` succeeded, `run_generation` aborts the
batch immediately (the backend is never consulted past item `k`) and returns
`success = false` with the error message; the files downloaded by the earlier
items are kept on disk (they remain in the download list) but they are NOT
reported in the result: the failure result carries an empty `images` list and
`total_generated = 0`. -/
theorem C4_batch_abort_amended (gen : Nat → List (String × WfNode) → ItemOutcome)
    (params : GenerateImageInput) (dw dh : Nat) (dm : String) (rs : Nat)
    (fns : Nat → List String) (k : Nat) (msg : String)
    (hk : k < params.batch_size)
    (hok : ∀ j, j < k →
      gen j (item_workflow (mkGenParams params dw dh dm) (params.seed.getD rs) j) =
        ItemOutcome.ok (fns j))
    (hfail :
      gen k (item_workflow (mkGenParams params dw dh dm) (params.seed.getD rs) k) =
        ItemOutcome.unavailable msg ∨
      gen k (item_workflow (mkGenParams params dw dh dm) (params.seed.getD rs) k) =
        ItemOutcome.genError msg) :
    (run_generation gen params dw dh dm rs).1 =
      { success := false, images := [], total_generated := 0, error := some msg } ∧
    (run_generation gen params dw dh dm rs).2 = ((List.range k).map fns).flatten := by
  have hfl := run_items_fail gen (mkGenParams params dw dh dm)
      (params.seed.getD rs) fns msg k 0 params.batch_size
      (fun j hj => by rw [Nat.zero_add]; exact hok j hj)
      (by rw [Nat.zero_add]; exact hfail) hk
  have e : (fun j => fns (0 + j)) = fns := by
    funext j
    rw [Nat.zero_add]
  rw [e] at hfl
  unfold run_generation
  rw [hfl]
  exact ⟨rfl, rfl⟩

/-- C4 witness: the amended claim applied to the concrete two-item batch of
the counterexample. -/
theorem C4_witness :
    (run_generation c4gen c4params 3840 2160 "flux1-schnell-fp8.safetensors" 0).1 =
      { success := false, images := [], total_generated := 0, error := some "boom" } ∧
    (run_generation c4gen c4params 3840 2160 "flux1-schnell-fp8.safetensors" 0).2 =
      ["a.png"] := by
  have h := C4_batch_abort_amended c4gen c4params 3840 2160
      "flux1-schnell-fp8.safetensors" 0 (fun _ => ["a.png"]) 1 "boom"
      (by decide) (by decide) (Or.inr (by decide))
  exact ⟨h.1, h.2.trans (by decide)⟩

/-- C6: in a fully successful run (each of the `b ∈ [1,4]` items succeeding
with one artifact), `run_generation` processes the items sequentially, each
item's workflow built with seed `s + i` and all other parameters shared, and
produces exactly `b` records whose seeds are `s, s+1, ..., s+b-1` in order. -/
theorem C6_batch_seeds (gen : Nat → List (String × WfNode) → ItemOutcome)
    (params : GenerateImageInput) (dw dh : Nat) (dm : String) (rs : Nat)
    (fn : Nat → String)
    (hb1 : 1 ≤ params.batch_size) (hb4 : params.batch_size ≤ 4)
    (hok : ∀ i, i < params.batch_size →
      gen i (item_workflow (mkGenParams params dw dh dm) (params.seed.getD rs) i) =
        ItemOutcome.ok [fn i]) :
    (run_generation gen params dw dh dm rs).1.success = true ∧
    (run_generation gen params dw dh dm rs).1.total_generated = params.batch_size ∧
    (run_generation gen params dw dh dm rs).1.images =
      (List.range params.batch_size).map
        (fun i => mkImage (mkGenParams params dw dh dm) (fn i)
          (params.seed.getD rs + i)) ∧
    (run_generation gen params dw dh dm rs).1.images.map GeneratedImage.seed =
      (List.range params.batch_size).map (fun i => params.seed.getD rs + i) := by
  have hall := run_items_all_ok gen (mkGenParams params dw dh dm)
      (params.seed.getD rs) fn params.batch_size 0
      (fun j hj => by rw [Nat.zero_add]; exact hok j hj)
  have e1 : (fun j => fn (0 + j)) = fn := by
    funext j
    rw [Nat.zero_add]
  have e2 : (fun j : Nat => mkImage (mkGenParams params dw dh dm) (fn (0 + j))
        (params.seed.getD rs + (0 + j))) =
      (fun j => mkImage (mkGenParams params dw dh dm) (fn j)
        (params.seed.getD rs + j)) := by
    funext j
    rw [Nat.zero_add]
  rw [e1, e2] at hall
  unfold run_generation
  rw [hall]
  refine ⟨rfl, ?_, rfl, ?_⟩
  · simp [List.length_map, List.length_range]
  · simp [List.map_map, Function.comp, mkImage]

/-- C6 witness: a two-item batch with base seed 5 yields records with seeds
`[5, 6]` in order. -/
theorem C6_witness :
    (run_generation okGen c4params 3840 2160 "flux1-schnell-fp8.safetensors"
        0).1.images.map GeneratedImage.seed = [5, 6] := by
  have h := C6_batch_seeds okGen c4params 3840 2160
      "flux1-schnell-fp8.safetensors" 0
      (fun i => String.append "img_" (toString i))
      (by decide) (by decide) (by decide)
  exact h.2.2.2.trans (by decide)

/-- C10: `build_flux_workflow` returns an identical node graph for every value
of `output_format`; the save node carries only the fixed filename prefix and
no format parameter; and the `format` field of each produced result record
merely echoes the request's `output_format`. -/
theorem C10_output_format_ignored (p np : String) (w h st : Nat) (g : Rat)
    (sd : Nat) (ck f1 f2 : String)
    (gen : Nat → List (String × WfNode) → ItemOutcome)
    (params : GenerateImageInput) (dw dh : Nat) (dm : String) (rs : Nat) :
    build_flux_workflow p np w h st g sd ck f1 =
      build_flux_workflow p np w h st g sd ck f2 ∧
    ("8", { classType := "SaveImage",
            inputs := [("images", JValue.ref "7" 0),
                       ("filename_prefix", JValue.str "flux_mcp")] }) ∈
        build_flux_workflow p np w h st g sd ck f1 ∧
    (∀ img, img ∈ (run_generation gen params dw dh dm rs).1.images →
        img.format = params.output_format) := by
  refine ⟨rfl, by simp [build_flux_workflow], ?_⟩
  intro img hm
  unfold run_generation at hm
  cases hr : run_items gen (mkGenParams params dw dh dm) (params.seed.getD rs)
      0 params.batch_size with
  | success files imgs =>
    rw [hr] at hm
    exact run_items_success_imgs_format gen (mkGenParams params dw dh dm)
      (params.seed.getD rs) params.batch_size 0 files imgs hr img hm
  | failure files msg =>
    rw [hr] at hm
    exact absurd hm (List.not_mem_nil img)

/-- C10 witness: the graphs built for `png` and `webp` output formats are
identical. -/
theorem C10_witness :
    build_flux_workflow "a" "b" 64 64 8 4 5 "ck" "png" =
      build_flux_workflow "a" "b" 64 64 8 4 5 "ck" "webp" :=
  (C10_output_format_ignored "a" "b" 64 64 8 4 5 "ck" "png" "webp" okGen
    c4params 1024 1024 "m" 0).1

/-- C7: at the adapter boundary, text below the required minimum (stripped
length < 3 for image prompts, < 1 for TTS text) is rejected with an HTTP 400
validation error before `run_generation` is ever invoked (the response is the
same for every backend), while text over the maximum (2000 characters for
image prompts, 5000 for TTS text) is silently truncated to the maximum and
the request is accepted, not rejected. -/
theorem C7_adapter_boundary (d p t q : Option String) :
    ((pyStrip (pyOrStr d (pyOrStr p ""))).length < 3 →
      image_adapter_prompt d p = Except.error (400, imageMinError)) ∧
    (2000 < (pyStrip (pyOrStr d (pyOrStr p ""))).length →
      image_adapter_prompt d p =
        Except.ok (pySlice (pyStrip (pyOrStr d (pyOrStr p ""))) 2000)) ∧
    (∀ gen dw dh dm rs (body : ImageBody), body.description = d →
      body.prompt = p → (pyStrip (pyOrStr d (pyOrStr p ""))).length < 3 →
      image_generate_endpoint gen body dw dh dm rs =
        { status := 400, success := false, error := some imageMinError }) ∧
    ((pyStrip (pyOrStr t (pyOrStr q ""))).length < 1 →
      audio_adapter_text t q = Except.error (400, audioMinError)) ∧
    (5000 < (pyStrip (pyOrStr t (pyOrStr q ""))).length →
      audio_adapter_text t q =
        Except.ok (pySlice (pyStrip (pyOrStr t (pyOrStr q ""))) 5000)) := by
  refine ⟨?_, ?_, ?_, ?_, ?_⟩
  · intro h
    simp only [image_adapter_prompt]
    rw [if_pos h]
  · intro h
    simp only [image_adapter_prompt]
    rw [if_neg (by omega)]
  · intro gen dw dh dm rs body hbd hbp h
    have he : image_adapter_prompt d p = Except.error (400, imageMinError) := by
      simp only [image_adapter_prompt]
      rw [if_pos h]
    simp [image_generate_endpoint, hbd, hbp, he]
  · intro h
    simp only [audio_adapter_text]
    rw [if_pos h]
  · intro h
    simp only [audio_adapter_text]
    rw [if_neg (by omega), if_pos h]

theorem dropWhile_eq_self_of_forall {α : Type} (p : α → Bool) (l : List α)
    (h : ∀ a ∈ l, p a = false) : l.dropWhile p = l := by
  cases l with
  | nil => rfl
  | cons a l =>
    rw [List.dropWhile_cons, h a (by simp)]
    simp

theorem pyStrip_of_no_whitespace (s : String)
    (h : ∀ c ∈ s.data, c.isWhitespace = false) : pyStrip s = s := by
  unfold pyStrip
  rw [dropWhile_eq_self_of_forall _ _ h,
      dropWhile_eq_self_of_forall _ _
        (fun a ha => h a (List.mem_reverse.mp ha)),
      List.reverse_reverse]

theorem replicate_no_whitespace (n : Nat) (c : Char)
    (hc : c.isWhitespace = false) :
    ∀ a ∈ List.replicate n c, a.isWhitespace = false := by
  intro a ha
  rw [List.eq_of_mem_replicate ha]
  exact hc

/-- C7 witness: a 2-character prompt is rejected with 400 on the image
surface; a 2001-character prompt is accepted and truncated to 2000; a
whitespace-only text is rejected on the audio surface; a 5001-character text
is accepted and truncated to 5000. -/
theorem C7_witness :
    image_adapter_prompt (some "ab") none = Except.error (400, imageMinError) ∧
    image_adapter_prompt (some longPrompt) none =
      Except.ok (String.mk (List.replicate 2000 'x')) ∧
    audio_adapter_text (some "   ") none = Except.error (400, audioMinError) ∧
    audio_adapter_text (some longText) none =
      Except.ok (String.mk (List.replicate 5000 'y')) := by
  have l1 : longPrompt.length = 2001 := by
    show (List.replicate 2001 'x').length = 2001
    rw [List.length_replicate]
  have l2 : longText.length = 5001 := by
    show (List.replicate 5001 'y').length = 5001
    rw [List.length_replicate]
  have hne1 : longPrompt ≠ "" := by
    intro hc
    rw [hc] at l1
    exact absurd l1 (by decide)
  have hne2 : longText ≠ "" := by
    intro hc
    rw [hc] at l2
    exact absurd l2 (by decide)
  have e1 : pyOrStr (some longPrompt) (pyOrStr none "") = longPrompt := by
    simp [pyOrStr, hne1]
  have e2 : pyOrStr (some longText) (pyOrStr none "") = longText := by
    simp [pyOrStr, hne2]
  have s1 : pyStrip longPrompt = longPrompt :=
    pyStrip_of_no_whitespace longPrompt
      (replicate_no_whitespace 2001 'x' (by decide))
  have s2 : pyStrip longText = longText :=
    pyStrip_of_no_whitespace longText
      (replicate_no_whitespace 5001 'y' (by decide))
  have h1 := (C7_adapter_boundary (some "ab") none (some "   ") none).1
    (by decide)
  have h2 := (C7_adapter_boundary (some longPrompt) none (some "   ") none).2.1
    (by rw [e1, s1, l1]; omega)
  have h3 := (C7_adapter_boundary (some "ab") none (some "   ") none).2.2.2.1
    (by decide)
  have h4 := (C7_adapter_boundary (some "ab") none (some longText) none).2.2.2.2
    (by rw [e2, s2, l2]; omega)
  refine ⟨h1, ?_, h3, ?_⟩
  · rw [h2, e1, s1]
    refine congrArg Except.ok ?_
    show String.mk ((List.replicate 2001 'x').take 2000) = _
    rw [List.take_replicate]
    norm_num
  · rw [h4, e2, s2]
    refine congrArg Except.ok ?_
    show String.mk ((List.replicate 5001 'y').take 5000) = _
    rw [List.take_replicate]
    norm_num

/-- C8: once a request passes adapter validation, a generation-level failure
is reported as data, not as a transport failure: the image endpoint always
answers HTTP 200 with the `success` / `error` fields of the orchestrator
result, and the audio endpoint answers HTTP 200 with `success:false` and the
exception message when the TTS call raises. -/
theorem C8_failures_are_http_200
    (gen : Nat → List (String × WfNode) → ItemOutcome) (body : ImageBody)
    (dw dh : Nat) (dm : String) (rs : Nat) (prm : String)
    (runAudio : String → Except String Unit) (t q : Option String)
    (ta e2 : String)
    (him : image_adapter_prompt body.description body.prompt = Except.ok prm)
    (hau : audio_adapter_text t q = Except.ok ta)
    (hafail : runAudio ta = Except.error e2) :
    (image_generate_endpoint gen body dw dh dm rs).status = 200 ∧
    (image_generate_endpoint gen body dw dh dm rs).success =
      (run_generation gen (body_params body prm) dw dh dm rs).1.success ∧
    (image_generate_endpoint gen body dw dh dm rs).error =
      (run_generation gen (body_params body prm) dw dh dm rs).1.error ∧
    audio_generate_endpoint runAudio t q =
      { status := 200, success := false, error := some e2 } := by
  refine ⟨?_, ?_, ?_, ?_⟩ <;>
    simp [image_generate_endpoint, audio_generate_endpoint, him, hau, hafail]

/-- C8 witness: with ComfyUI unreachable the image endpoint answers 200 /
`success:false` with the error message, and with a raising TTS backend the
audio endpoint does the same. -/
theorem C8_witness :
    (image_generate_endpoint failGen okBody 3840 2160 "flux" 0).status = 200 ∧
    (image_generate_endpoint failGen okBody 3840 2160 "flux" 0).success = false ∧
    (image_generate_endpoint failGen okBody 3840 2160 "flux" 0).error =
      some "ComfyUI no responde" ∧
    audio_generate_endpoint failAudio (some "hola") none =
      { status := 200, success := false,
        error := some "RuntimeError: model not loaded" } := by
  have h := C8_failures_are_http_200 failGen okBody 3840 2160 "flux" 0
      "a red apple on a white table" failAudio (some "hola") none "hola"
      "RuntimeError: model not loaded" rfl rfl rfl
  exact ⟨h.1, h.2.1.trans (by decide), h.2.2.1.trans (by decide), h.2.2.2⟩

/-- C9 (code bug): `get_model` has no mutex or load-once primitive: the check
of the `_model` global and the later assignment to it are separate,
unguarded steps.  Sequentially the lazy singleton works — with caller A
running to completion before caller B starts, one load happens and B gets
the cached model — but two concurrent first callers can interleave
check-and-load before either publishes: the schedule
[A checks and loads, B checks and loads, A publishes, B publishes]
performs two `from_pretrained` loads, contradicting the claim that
concurrent first callers never trigger duplicate loads. -/
theorem C9_get_model_race :
    ((runSchedule [true, true, false, false] { model := none, loads := 0 }
        CallerPC.start CallerPC.start).1.loads = 1 ∧
     (runSchedule [true, true, false, false] { model := none, loads := 0 }
        CallerPC.start CallerPC.start).2.2 = CallerPC.done 0) ∧
    (runSchedule [true, false, true, false] { model := none, loads := 0 }
        CallerPC.start CallerPC.start).1.loads = 2 := by
  refine ⟨⟨?_, ?_⟩, ?_⟩ <;> rfl
